import Mathlib

/-!
Verification development for the DLCF E-Library repository.

The embedding covers, faithfully to the source:
* `server.ts`: the login and register request handlers and the
  generate-link expiry computation, over an explicit relational state
  (`ServerDB`) standing for the external identity store;
* `src/App.tsx`: the pure catalog filter `filteredBooks`, the four-phase
  add-book upload pipeline `handleAddBook` (driven by an environment of
  network outcomes and recording which network calls are issued), the
  optimistic admin mutations (approve user, revoke link, delete book)
  and the books-fetch fallback `fetchBooksUpdate`;
* `src/types.ts`: the data model (`Book`, `FilterState`,
  `RegistrationLink`).

Timestamps are modelled as integer milliseconds since the epoch: the
source compares `Date` objects, whose order coincides with the order of
their millisecond values, and `setHours(getHours() + 24)` adds exactly
86400000 milliseconds.
-/

namespace ELibrary

/-- A row of the `users` table (see the schema in the setup guide and the
columns referenced by `server.ts`). -/
structure UserRow where
  id : String
  email : String
  password : String
  name : String
  is_approved : Bool
  is_admin : Bool
deriving Repr, DecidableEq

/-- A row of the `registration_links` table; `expires_at` and `created_at`
are milliseconds since the epoch. -/
structure RegLink where
  id : String
  token : String
  expires_at : Int
  created_at : Int
deriving Repr, DecidableEq

/-- The identity store visible to the auth routes of `server.ts`. -/
structure ServerDB where
  users : List UserRow
  links : List RegLink
deriving Repr, DecidableEq

/-- The sanitized user projection the login route returns:
`{ id, email, name, isAdmin }` and nothing else. -/
structure SanitizedUser where
  id : String
  email : String
  name : String
  isAdmin : Bool
deriving Repr, DecidableEq

/-- Outcome of `POST /api/auth/login`. -/
inductive LoginResult where
  | ok (user : SanitizedUser)
  | err (status : Nat) (msg : String)
deriving Repr, DecidableEq

/-- `POST /api/auth/login` (server.ts lines 110-133): select a user row by
exact email and password equality; 401 when none matches, 403 when the row
is neither approved nor admin, otherwise the sanitized projection. -/
def login (db : ServerDB) (email password : String) : LoginResult :=
  match db.users.find? (fun u => u.email == email && u.password == password) with
  | none => .err 401 "Invalid credentials"
  | some u =>
    if !u.is_approved && !u.is_admin then
      .err 403 "Account pending approval"
    else
      .ok { id := u.id, email := u.email, name := u.name, isAdmin := u.is_admin }

/-- Outcome of `POST /api/auth/register`. -/
inductive RegisterResult where
  | success
  | err (status : Nat) (msg : String)
deriving Repr, DecidableEq

/-- `POST /api/auth/register` (server.ts lines 135-170): look up the link row
by token; 400 when absent, 400 when `expires_at` is before now; otherwise
insert one new unapproved, non-admin user row (`newId` stands for the fresh
uuid) and delete every link row carrying the consumed token. -/
def register (db : ServerDB) (now : Int) (newId email password name token : String) :
    RegisterResult × ServerDB :=
  match db.links.find? (fun l => l.token == token) with
  | none => (.err 400 "Invalid registration link", db)
  | some link =>
    if link.expires_at < now then
      (.err 400 "Registration link expired", db)
    else
      (.success,
        { users := db.users ++
            [{ id := newId, email := email, password := password, name := name,
               is_approved := false, is_admin := false }],
          links := db.links.filter (fun l => !(l.token == token)) })

/-- `POST /api/admin/generate-link` (server.ts lines 222-238): a fresh row
whose expiry is exactly 24 hours (86400000 ms) after issuance. -/
def generateLink (now : Int) (id token : String) : RegLink :=
  { id := id, token := token, expires_at := now + 86400000, created_at := now }

/-- The two values of the `category` column (`BookCategory` in types.ts):
`Academic` and `Christian Novel`. -/
inductive BookCategory where
  | academic
  | christianNovel
deriving Repr, DecidableEq

/-- A client-side catalog record (`Book` in types.ts); the academic-only
fields are optional. -/
structure Book where
  id : String
  title : String
  author : String
  category : BookCategory
  description : String
  coverUrl : String
  downloadUrl : String
  department : Option String
  courseCode : Option String
  courseTitle : Option String
  level : Option String
deriving Repr, DecidableEq

/-- The category slot of `FilterState`: a concrete category or the literal
string value `'All'`. -/
inductive CategoryFilter where
  | all
  | cat (c : BookCategory)
deriving Repr, DecidableEq

/-- `FilterState` of types.ts. -/
structure FilterState where
  search : String
  category : CategoryFilter
  department : String
  level : String
deriving Repr, DecidableEq

/-- Whether `needle` occurs at the start of `hay`. -/
def leadsList (needle hay : List Char) : Bool :=
  match needle, hay with
  | [], _ => true
  | _ :: _, [] => false
  | a :: as, b :: bs => a == b && leadsList as bs

/-- Whether `needle` occurs contiguously somewhere in `hay`. -/
def occursIn (needle : List Char) : List Char → Bool
  | [] => needle.isEmpty
  | b :: bs => leadsList needle (b :: bs) || occursIn needle bs

/-- JavaScript `hay.includes(needle)`: substring containment. -/
def strIncludes (hay needle : String) : Bool :=
  occursIn needle.toList hay.toList

/-- Optional chaining `field?.toLowerCase().includes(needle.toLowerCase())`
coerced to a boolean: `false` when the field is absent. -/
def optIncludesLower (field : Option String) (needle : String) : Bool :=
  match field with
  | none => false
  | some s => strIncludes s.toLower needle.toLower

/-- `matchesSearch` of `filteredBooks` (App.tsx lines 406-410). -/
def matchesSearch (b : Book) (f : FilterState) : Bool :=
  strIncludes b.title.toLower f.search.toLower ||
  strIncludes b.author.toLower f.search.toLower ||
  optIncludesLower b.courseCode f.search ||
  optIncludesLower b.courseTitle f.search

/-- `matchesCategory` (App.tsx line 412): strict equality of the book's
category with the filter value, which is never the value `'All'`. -/
def matchesCategory (b : Book) (f : FilterState) : Bool :=
  f.category == .cat b.category

/-- `matchesDept` (App.tsx lines 414-416). -/
def matchesDept (b : Book) (f : FilterState) : Bool :=
  f.department == "All" ||
  (b.category == .academic && b.department == some f.department)

/-- `matchesLevel` (App.tsx lines 418-420). -/
def matchesLevel (b : Book) (f : FilterState) : Bool :=
  f.level == "All" ||
  (b.category == .academic && b.level == some f.level)

/-- The conjunction returned at App.tsx line 422. -/
def bookMatches (b : Book) (f : FilterState) : Bool :=
  matchesSearch b f && matchesCategory b f && matchesDept b f && matchesLevel b f

/-- `filteredBooks` (App.tsx lines 404-424). -/
def filteredBooks (books : List Book) (f : FilterState) : List Book :=
  books.filter (fun b => bookMatches b f)

/-- The search predicate applied alone. -/
def applySearch (f : FilterState) (books : List Book) : List Book :=
  books.filter (fun b => matchesSearch b f)

/-- The category predicate applied alone. -/
def applyCategory (f : FilterState) (books : List Book) : List Book :=
  books.filter (fun b => matchesCategory b f)

/-- The department predicate applied alone. -/
def applyDept (f : FilterState) (books : List Book) : List Book :=
  books.filter (fun b => matchesDept b f)

/-- The level predicate applied alone. -/
def applyLevel (f : FilterState) (books : List Book) : List Book :=
  books.filter (fun b => matchesLevel b f)

/-- The network calls `handleAddBook` can issue after thumbnail
generation, in program order. -/
inductive NetCall where
  | uploadPdf
  | uploadThumb
  | createRecord
deriving Repr, DecidableEq

/-- A JSON response body as the client reads it: an optional `url` field
and an optional `error` field. -/
structure JsonBody where
  url : Option String
  error : Option String
deriving Repr, DecidableEq

/-- An HTTP response: the `ok` flag, the status code, and the body, which
is `none` when the response text is not valid JSON. -/
structure HttpResponse where
  ok : Bool
  status : Nat
  body : Option JsonBody
deriving Repr, DecidableEq

/-- What the add-material form submission carries (App.tsx lines 802-898):
the direct title input is rendered only for the Christian Novel category,
the four academic inputs only for the Academic category; `FormData.get` on
an absent field gives `null`, hence the `Option`s. -/
structure AddBookForm where
  category : BookCategory
  title : Option String
  department : Option String
  level : Option String
  course_code : Option String
  course_title : Option String
deriving Repr, DecidableEq

/-- The book record `handleAddBook` builds and posts in phase 4
(App.tsx lines 342-352); the server only adds a fresh id. -/
structure BookRecord where
  title : Option String
  author : String
  category : BookCategory
  cover_url : Option String
  download_url : Option String
  department : Option String
  level : Option String
  course_code : Option String
  course_title : Option String
deriving Repr, DecidableEq

/-- The environment a single submission runs against: whether rasterizing
and JPEG-encoding the first page produced a blob, and the responses the
three network calls would receive if issued. -/
structure UploadEnv where
  thumbOk : Bool
  pdfResp : HttpResponse
  thumbResp : HttpResponse
  saveResp : HttpResponse
deriving Repr, DecidableEq

/-- Outcome of one submission: the record posted on success, or the
phase-specific error message. -/
inductive UploadResult where
  | ok (record : BookRecord)
  | err (msg : String)
deriving Repr, DecidableEq

/-- JavaScript `a || b` for an optional string against a default: a missing
or empty value falls through to the default. -/
def jsOrDefault (a : Option String) (d : String) : String :=
  match a with
  | some s => if s = "" then d else s
  | none => d

/-- `handleAddBook` (App.tsx lines 265-385), from the point where the file
is in hand: phase 1 thumbnail generation, phase 2 PDF upload, phase 3
thumbnail upload, phase 4 record creation; each phase's failure throws,
aborting the rest. The second component lists the network calls issued. -/
def handleAddBook (form : AddBookForm) (env : UploadEnv) : UploadResult × List NetCall :=
  if !env.thumbOk then
    (.err "Failed to generate thumbnail", [])
  else
    match env.pdfResp.body with
    | none =>
        (.err ("Server returned non-JSON response during PDF upload (" ++
          toString env.pdfResp.status ++ ")"), [.uploadPdf])
    | some pdfData =>
      if !env.pdfResp.ok then
        (.err (jsOrDefault pdfData.error "PDF upload failed"), [.uploadPdf])
      else
        match env.thumbResp.body with
        | none =>
            (.err ("Server returned non-JSON response during thumbnail upload (" ++
              toString env.thumbResp.status ++ ")"), [.uploadPdf, .uploadThumb])
        | some thumbData =>
          if !env.thumbResp.ok then
            (.err (jsOrDefault thumbData.error "Thumbnail upload failed"),
              [.uploadPdf, .uploadThumb])
          else
            let record : BookRecord :=
              { title := if form.category == .academic then form.course_title else form.title,
                author := "DLCF Library",
                category := form.category,
                cover_url := thumbData.url,
                download_url := pdfData.url,
                department := form.department,
                level := form.level,
                course_code := form.course_code,
                course_title := form.course_title }
            match env.saveResp.body with
            | none =>
                (.err ("Server returned non-JSON response during record save (" ++
                  toString env.saveResp.status ++ ")"),
                  [.uploadPdf, .uploadThumb, .createRecord])
            | some respData =>
              if env.saveResp.ok then
                (.ok record, [.uploadPdf, .uploadThumb, .createRecord])
              else
                (.err (jsOrDefault respData.error "Failed to add book"),
                  [.uploadPdf, .uploadThumb, .createRecord])

/-- Which fields the add-material form renders and requires per category
(App.tsx lines 817-822 and 852-882): the title input only for Christian
Novel, the four academic inputs only for Academic, every rendered input
marked `required`. -/
def formWellFormed (f : AddBookForm) : Prop :=
  match f.category with
  | .academic =>
      f.title = none ∧ f.department.isSome ∧ f.level.isSome ∧
      f.course_code.isSome ∧ f.course_title.isSome
  | .christianNovel =>
      f.title.isSome ∧ f.department = none ∧ f.level = none ∧
      f.course_code = none ∧ f.course_title = none

/-- A row of the pending-users list the admin view holds. -/
structure PendingUser where
  id : String
  email : String
  name : String
deriving Repr, DecidableEq

/-- `RegistrationLink` of types.ts, as the client lists it (string-encoded
timestamps). -/
structure RegistrationLink where
  id : String
  token : String
  expires_at : String
  created_at : String
deriving Repr, DecidableEq

/-- `approveUser` (App.tsx lines 229-246) as a state transformer on the
pending-users list: snapshot, optimistic removal, rollback to the snapshot
when the remote call reports failure. -/
def approveUserClient (pendingUsers : List PendingUser) (userId : String)
    (remoteOk : Bool) : List PendingUser :=
  let previousUsers := pendingUsers
  let optimistic := pendingUsers.filter (fun u => !(u.id == userId))
  if remoteOk then optimistic else previousUsers

/-- `deleteLink` (App.tsx lines 248-263): nothing happens without the
interactive confirmation; otherwise optimistic removal with rollback. -/
def deleteLinkClient (adminLinks : List RegistrationLink) (id : String)
    (confirmed remoteOk : Bool) : List RegistrationLink :=
  if !confirmed then adminLinks
  else
    let previousLinks := adminLinks
    let optimistic := adminLinks.filter (fun l => !(l.id == id))
    if remoteOk then optimistic else previousLinks

/-- `deleteBook` (App.tsx lines 387-402): same shape over the books list. -/
def deleteBookClient (books : List Book) (id : String)
    (confirmed remoteOk : Bool) : List Book :=
  if !confirmed then books
  else
    let previousBooks := books
    let optimistic := books.filter (fun b => !(b.id == id))
    if remoteOk then optimistic else previousBooks

/-- A raw row of the books endpoint as `fetchBooks` receives it, before the
snake-to-camel normalization; either spelling of each duplicated field may
be present. -/
structure RawBook where
  id : String
  title : String
  author : String
  category : String
  cover_url : Option String
  coverUrl : Option String
  download_url : Option String
  downloadUrl : Option String
  course_code : Option String
  courseCode : Option String
  course_title : Option String
  courseTitle : Option String
deriving Repr, DecidableEq

/-- JavaScript `a || b` on two possibly-missing strings: a missing or empty
first operand falls through to the second. -/
def jsOrOpt (a b : Option String) : Option String :=
  match a with
  | some s => if s = "" then b else some s
  | none => b

/-- The normalization `fetchBooks` maps over the rows (App.tsx lines 92-98). -/
def normalizeBook (b : RawBook) : RawBook :=
  { b with
    coverUrl := jsOrOpt b.cover_url b.coverUrl,
    downloadUrl := jsOrOpt b.download_url b.downloadUrl,
    courseCode := jsOrOpt b.course_code b.courseCode,
    courseTitle := jsOrOpt b.course_title b.courseTitle }

/-- The ways the books request can come back: the fetch threw, the response
was not ok (carrying the parsed body's optional `error` field), the body
was ok but not an array, or an ok array of rows. -/
inductive FetchOutcome where
  | threw
  | respNotOk (errorMsg : Option String)
  | okNotArray
  | okArray (rows : List RawBook)
deriving Repr, DecidableEq

/-- The client state `fetchBooks` touches: the displayed book list and the
`dbError` banner text. -/
structure BooksState where
  books : List RawBook
  dbError : Option String
deriving Repr, DecidableEq

/-- `fetchBooks` (App.tsx lines 72-104) as a state update, parameterized
over the bundled demo catalog `INITIAL_BOOKS` (`demo`): every failure path
falls back to the demo list; the banner is set only on a not-ok response
whose error message mentions `SUPABASE_URL`, and cleared only after an ok
response parses. -/
def fetchBooksUpdate (demo : List RawBook) (st : BooksState) (o : FetchOutcome) :
    BooksState :=
  match o with
  | .threw => { books := demo, dbError := st.dbError }
  | .respNotOk errorMsg =>
      { books := demo,
        dbError :=
          if (errorMsg.map (fun e => strIncludes e "SUPABASE_URL")).getD false then
            some "Database not configured. Showing demo materials."
          else st.dbError }
  | .okNotArray => { books := demo, dbError := none }
  | .okArray rows =>
      let normalized := rows.map normalizeBook
      { books := if normalized.length > 0 then normalized else demo,
        dbError := none }

/-! ## Helper lemmas -/

/-- On a list whose `key`s are pairwise distinct, `find?` returns exactly the
member satisfying the predicate, provided every satisfying element shares
that member's key. -/
theorem find?_eq_some_of_unique_key {α : Type} (key : α → String) (p : α → Bool)
    {l : List α} (hp : l.Pairwise (fun a b => key a ≠ key b)) {u : α}
    (hu : u ∈ l) (hpu : p u = true) (hkey : ∀ v, p v = true → key v = key u) :
    l.find? p = some u := by
  induction l with
  | nil => cases hu
  | cons x xs ih =>
    rw [List.pairwise_cons] at hp
    by_cases hx : p x = true
    · rw [List.find?_cons_of_pos _ hx]
      rcases List.mem_cons.mp hu with rfl | hu'
      · rfl
      · exact absurd (hkey x hx) (hp.1 u hu')
    · rw [List.find?_cons_of_neg _ hx]
      rcases List.mem_cons.mp hu with rfl | hu'
      · exact absurd hpu hx
      · exact ih hp.2 hu'

/-- Two filters in a row are one filter by the conjunction. -/
theorem filter_after_filter {α : Type} (p q : α → Bool) (l : List α) :
    (l.filter q).filter p = l.filter (fun a => p a && q a) := by
  induction l with
  | nil => rfl
  | cons x xs ih =>
    cases hq : q x <;> cases hp : p x <;>
      simp [List.filter_cons, hp, hq, ih]

/-- Consecutive filters commute. -/
theorem filter_swap {α : Type} (p q : α → Bool) (l : List α) :
    (l.filter q).filter p = (l.filter p).filter q := by
  rw [filter_after_filter, filter_after_filter]
  exact List.filter_congr (fun x _ => Bool.and_comm (p x) (q x))

/-- Unfolding lemma for the optional-chaining search test. -/
theorem optIncludesLower_eq_true {o : Option String} {needle : String} :
    optIncludesLower o needle = true ↔
      ∃ s, o = some s ∧ strIncludes s.toLower needle.toLower = true := by
  cases o <;> simp [optIncludesLower]

/-! ## Claim theorems -/

/-- A sample unapproved, non-admin member row used by concrete
instantiations. -/
def annRow : UserRow :=
  { id := "u1", email := "ann@dlcf.org", password := "pw", name := "Ann",
    is_approved := false, is_admin := false }

/-- C2: a login succeeds exactly when a user row matches the email and
password and is approved or admin; no match gives 401 `Invalid credentials`;
a matching row that is neither approved nor admin gives 403
`Account pending approval`; a success carries only the sanitized projection
(id, email, name, admin flag) of the matching row. -/
theorem login_matches_spec (db : ServerDB) (email password : String)
    (hu : db.users.Pairwise (fun a b => a.email ≠ b.email)) :
    ((∃ s, login db email password = .ok s) ↔
        ∃ u ∈ db.users, u.email = email ∧ u.password = password ∧
          (u.is_approved = true ∨ u.is_admin = true)) ∧
    ((¬ ∃ u ∈ db.users, u.email = email ∧ u.password = password) →
        login db email password = .err 401 "Invalid credentials") ∧
    (∀ u ∈ db.users, u.email = email → u.password = password →
        u.is_approved = false → u.is_admin = false →
        login db email password = .err 403 "Account pending approval") ∧
    (∀ s, login db email password = .ok s →
        ∃ u ∈ db.users, u.email = email ∧ u.password = password ∧
          s = { id := u.id, email := u.email, name := u.name, isAdmin := u.is_admin }) := by
  have hfindeq : ∀ u ∈ db.users, u.email = email → u.password = password →
      db.users.find? (fun a => a.email == email && a.password == password) = some u := by
    intro u hmem he hpw
    refine find?_eq_some_of_unique_key (fun a => a.email) _ hu hmem (by simp [he, hpw]) ?_
    intro v hv
    show v.email = u.email
    rw [beq_iff_eq.mp ((Bool.and_eq_true _ _).mp hv).1, he]
  refine ⟨⟨?_, ?_⟩, ?_, ?_, ?_⟩
  · rintro ⟨s, hs⟩
    cases hfind : db.users.find? (fun a => a.email == email && a.password == password) with
    | none =>
      simp only [login, hfind] at hs
      exact (LoginResult.noConfusion hs)
    | some v =>
      have hv := List.find?_some hfind
      have hvm := List.mem_of_find?_eq_some hfind
      have hve : v.email = email := beq_iff_eq.mp ((Bool.and_eq_true _ _).mp hv).1
      have hvp : v.password = password := beq_iff_eq.mp ((Bool.and_eq_true _ _).mp hv).2
      refine ⟨v, hvm, hve, hvp, ?_⟩
      simp only [login, hfind] at hs
      cases hA : v.is_approved with
      | true => exact Or.inl rfl
      | false =>
        cases hD : v.is_admin with
        | true => exact Or.inr rfl
        | false => rw [hA, hD] at hs; simp at hs
  · rintro ⟨u, hmem, he, hpw, happ⟩
    have hfind := hfindeq u hmem he hpw
    have hcond : (!u.is_approved && !u.is_admin) = false := by
      rcases happ with h | h <;> simp [h]
    exact ⟨{ id := u.id, email := u.email, name := u.name, isAdmin := u.is_admin },
      by simp [login, hfind, hcond]⟩
  · intro hno
    cases hfind : db.users.find? (fun a => a.email == email && a.password == password) with
    | none => simp [login, hfind]
    | some v =>
      have hv := List.find?_some hfind
      exact absurd ⟨v, List.mem_of_find?_eq_some hfind,
        beq_iff_eq.mp ((Bool.and_eq_true _ _).mp hv).1,
        beq_iff_eq.mp ((Bool.and_eq_true _ _).mp hv).2⟩ hno
  · intro u hmem he hpw ha hd
    have hfind := hfindeq u hmem he hpw
    simp [login, hfind, ha, hd]
  · intro s hs
    cases hfind : db.users.find? (fun a => a.email == email && a.password == password) with
    | none =>
      simp only [login, hfind] at hs
      exact (LoginResult.noConfusion hs)
    | some v =>
      have hv := List.find?_some hfind
      simp only [login, hfind] at hs
      by_cases happ : (!v.is_approved && !v.is_admin) = true
      · rw [if_pos happ] at hs; simp at hs
      · rw [if_neg happ] at hs
        injection hs with h
        exact ⟨v, List.mem_of_find?_eq_some hfind,
          beq_iff_eq.mp ((Bool.and_eq_true _ _).mp hv).1,
          beq_iff_eq.mp ((Bool.and_eq_true _ _).mp hv).2, h.symm⟩

/-- C2 witness: on a store holding one matching unapproved, non-admin row,
the login is rejected with 403 `Account pending approval`. -/
theorem login_matches_spec_witness :
    login { users := [annRow], links := [] } "ann@dlcf.org" "pw" =
      .err 403 "Account pending approval" := by
  have h := login_matches_spec { users := [annRow], links := [] }
    "ann@dlcf.org" "pw" (by simp)
  exact h.2.2.1 annRow (by simp) rfl rfl rfl rfl

/-- The user row the register route inserts for a given request. -/
def freshUser (newId email password name : String) : UserRow :=
  { id := newId, email := email, password := password, name := name,
    is_approved := false, is_admin := false }

/-- C1: a registration with an unknown token, or whose link's expiry lies
before the current time, is rejected with a 400 error and leaves the store
unchanged; otherwise exactly one new unapproved, non-admin user row is
appended and every link row carrying the consumed token is deleted while
all other links survive; in particular a link generated at time `T` is
rejected at `T + 25` hours (90000000 ms later, expiry being `T + 24`
hours). -/
theorem register_matches_spec (db : ServerDB) (now : Int)
    (newId email password name token : String)
    (hp : db.links.Pairwise (fun a b => a.token ≠ b.token)) :
    ((∀ l ∈ db.links, l.token ≠ token) →
        register db now newId email password name token =
          (.err 400 "Invalid registration link", db)) ∧
    (∀ link ∈ db.links, link.token = token → link.expires_at < now →
        register db now newId email password name token =
          (.err 400 "Registration link expired", db)) ∧
    (∀ link ∈ db.links, link.token = token → ¬ link.expires_at < now →
        (register db now newId email password name token).1 = .success ∧
        (register db now newId email password name token).2.users =
          db.users ++ [freshUser newId email password name] ∧
        (∀ l ∈ (register db now newId email password name token).2.links,
          l.token ≠ token) ∧
        (∀ l ∈ db.links, l.token ≠ token →
          l ∈ (register db now newId email password name token).2.links)) ∧
    (∀ (T : Int) (lid : String), generateLink T lid token ∈ db.links →
        (register db (T + 90000000) newId email password name token).1 =
          .err 400 "Registration link expired") := by
  have hfindeq : ∀ link ∈ db.links, link.token = token →
      db.links.find? (fun l => l.token == token) = some link := by
    intro link hmem ht
    refine find?_eq_some_of_unique_key (fun l => l.token) _ hp hmem (by simp [ht]) ?_
    intro v hv
    show v.token = link.token
    rw [beq_iff_eq.mp hv, ht]
  refine ⟨?_, ?_, ?_, ?_⟩
  · intro hno
    have hfind : db.links.find? (fun l => l.token == token) = none := by
      rw [List.find?_eq_none]
      intro l hl
      simp [hno l hl]
    simp [register, hfind]
  · intro link hmem ht hexp
    simp [register, hfindeq link hmem ht, hexp]
  · intro link hmem ht hexp
    have hfind := hfindeq link hmem ht
    refine ⟨by simp [register, hfind, hexp],
      by simp [register, freshUser, hfind, hexp], ?_, ?_⟩
    · intro l hl
      simp only [register, hfind, if_neg hexp] at hl
      have := (List.mem_filter.mp hl).2
      simpa using this
    · intro l hl hne
      simp only [register, hfind, if_neg hexp]
      exact List.mem_filter.mpr ⟨hl, by simpa using hne⟩
  · intro T lid hmem
    have h := hfindeq (generateLink T lid token) hmem rfl
    have hexp : (generateLink T lid token).expires_at < T + 90000000 := by
      simp only [generateLink]
      omega
    simp [register, h, hexp]

/-- C1 witness: a link generated at time 0 rejects a registration attempted
25 hours later, on a store holding exactly that link. -/
theorem register_matches_spec_witness :
    (register { users := [], links := [generateLink 0 "l1" "tok"] } 90000000
        "u2" "bob@dlcf.org" "pw2" "Bob" "tok").1 =
      .err 400 "Registration link expired" := by
  have h := register_matches_spec { users := [], links := [generateLink 0 "l1" "tok"] }
    90000000 "u2" "bob@dlcf.org" "pw2" "Bob" "tok" (by simp)
  simpa using h.2.2.2 0 "l1" (by simp)

/-- C3: membership in the filtered catalog is exactly the conjunction of
the search, category, department and level conditions. -/
theorem filteredBooks_mem_iff (books : List Book) (f : FilterState) (b : Book) :
    b ∈ filteredBooks books f ↔
      b ∈ books ∧
      (strIncludes b.title.toLower f.search.toLower = true ∨
        strIncludes b.author.toLower f.search.toLower = true ∨
        (∃ c, b.courseCode = some c ∧ strIncludes c.toLower f.search.toLower = true) ∨
        (∃ c, b.courseTitle = some c ∧ strIncludes c.toLower f.search.toLower = true)) ∧
      f.category = .cat b.category ∧
      (f.department = "All" ∨
        (b.category = .academic ∧ b.department = some f.department)) ∧
      (f.level = "All" ∨ (b.category = .academic ∧ b.level = some f.level)) := by
  simp [filteredBooks, List.mem_filter, bookMatches, matchesSearch, matchesCategory,
    matchesDept, matchesLevel, optIncludesLower_eq_true, and_assoc, or_assoc]

/-- C8: filtering is idempotent, the four predicates commute pairwise, and
their composition in the nominal order is exactly `filteredBooks`. -/
theorem filtering_idempotent_commutative :
    (∀ (books : List Book) (f : FilterState),
        filteredBooks (filteredBooks books f) f = filteredBooks books f) ∧
    (∀ (books : List Book) (f : FilterState),
        applySearch f (applyCategory f books) = applyCategory f (applySearch f books)) ∧
    (∀ (books : List Book) (f : FilterState),
        applySearch f (applyDept f books) = applyDept f (applySearch f books)) ∧
    (∀ (books : List Book) (f : FilterState),
        applySearch f (applyLevel f books) = applyLevel f (applySearch f books)) ∧
    (∀ (books : List Book) (f : FilterState),
        applyCategory f (applyDept f books) = applyDept f (applyCategory f books)) ∧
    (∀ (books : List Book) (f : FilterState),
        applyCategory f (applyLevel f books) = applyLevel f (applyCategory f books)) ∧
    (∀ (books : List Book) (f : FilterState),
        applyDept f (applyLevel f books) = applyLevel f (applyDept f books)) ∧
    (∀ (books : List Book) (f : FilterState),
        applySearch f (applyCategory f (applyDept f (applyLevel f books))) =
          filteredBooks books f) := by
  refine ⟨?_, ?_, ?_, ?_, ?_, ?_, ?_, ?_⟩
  · intro books f
    rw [filteredBooks, filteredBooks, filter_after_filter]
    exact List.filter_congr (fun x _ => by cases h : bookMatches x f <;> simp [h])
  · intro books f
    simp only [applySearch, applyCategory]
    exact filter_swap _ _ _
  · intro books f
    simp only [applySearch, applyDept]
    exact filter_swap _ _ _
  · intro books f
    simp only [applySearch, applyLevel]
    exact filter_swap _ _ _
  · intro books f
    simp only [applyCategory, applyDept]
    exact filter_swap _ _ _
  · intro books f
    simp only [applyCategory, applyLevel]
    exact filter_swap _ _ _
  · intro books f
    simp only [applyDept, applyLevel]
    exact filter_swap _ _ _
  · intro books f
    simp only [applySearch, applyCategory, applyDept, applyLevel, filteredBooks]
    rw [filter_after_filter, filter_after_filter, filter_after_filter]
    refine List.filter_congr (fun x _ => ?_)
    cases h1 : matchesSearch x f <;> cases h2 : matchesCategory x f <;>
      cases h3 : matchesDept x f <;> cases h4 : matchesLevel x f <;>
      simp [bookMatches, h1, h2, h3, h4]

/-- A sample non-academic catalog record used by concrete instantiations. -/
def demoNovel : Book :=
  { id := "b1", title := "The Pilgrim", author := "John Bunyan",
    category := .christianNovel, description := "", coverUrl := "c",
    downloadUrl := "d", department := none, courseCode := none,
    courseTitle := none, level := none }

/-- C10: with the category filter set to the literal value `'All'` (the
state installed by the clear-all-filters action) no book's category compares
equal, so the filtered result is empty whatever the book list. -/
theorem categoryAll_yields_empty (books : List Book) (f : FilterState)
    (h : f.category = .all) : filteredBooks books f = [] := by
  rw [filteredBooks, List.filter_eq_nil_iff]
  intro b _
  simp [bookMatches, matchesCategory, h]

/-- C10 witness: a one-book catalog filtered with the cleared filter state
displays nothing. -/
theorem categoryAll_yields_empty_witness :
    filteredBooks [demoNovel]
      { search := "", category := .all, department := "All", level := "All" } = [] :=
  categoryAll_yields_empty [demoNovel]
    { search := "", category := .all, department := "All", level := "All" } rfl

/-- The catalog record phase 4 posts, as a function of the form and the two
upload URLs (App.tsx lines 336-352). -/
def builtRecord (form : AddBookForm) (pdfUrl thumbUrl : Option String) : BookRecord :=
  { title := if form.category == .academic then form.course_title else form.title,
    author := "DLCF Library",
    category := form.category,
    cover_url := thumbUrl,
    download_url := pdfUrl,
    department := form.department,
    level := form.level,
    course_code := form.course_code,
    course_title := form.course_title }

/-- A successful pipeline run posts exactly the record built from the form
and the two upload URLs. -/
theorem handleAddBook_ok_shape (form : AddBookForm) (env : UploadEnv) (r : BookRecord)
    (h : (handleAddBook form env).1 = .ok r) :
    ∃ pd tb, env.pdfResp.body = some pd ∧ env.thumbResp.body = some tb ∧
      r = builtRecord form pd.url tb.url := by
  obtain ⟨tOk, ⟨pok, pst, pbody⟩, ⟨tok2, tst, tbody⟩, ⟨sok, sst, sbody⟩⟩ := env
  cases tOk <;> rcases pbody with _ | pd <;> cases pok <;>
    rcases tbody with _ | td <;> cases tok2 <;> rcases sbody with _ | sd <;> cases sok <;>
    first
      | exact UploadResult.noConfusion h
      | exact ⟨pd, td, rfl, rfl, (UploadResult.ok.inj h).symm⟩

/-- The academic-submission environment used by concrete instantiations:
every phase succeeds. -/
def okEnv : UploadEnv :=
  { thumbOk := true,
    pdfResp := { ok := true, status := 200,
                 body := some { url := some "https://x/pdf", error := none } },
    thumbResp := { ok := true, status := 200,
                   body := some { url := some "https://x/thumb", error := none } },
    saveResp := { ok := true, status := 200,
                  body := some { url := none, error := none } } }

/-- The academic submission of the specification's scenario. -/
def acadForm : AddBookForm :=
  { category := .academic, title := none, department := some "Computer Science",
    level := some "100", course_code := some "CSC101",
    course_title := some "Intro to CS" }

/-- A Christian Novel submission as the form renders it. -/
def novelForm : AddBookForm :=
  { category := .christianNovel, title := some "The Pilgrim", department := none,
    level := none, course_code := none, course_title := none }

/-- C4: when thumbnail generation yields no blob, no network call at all is
issued; a PDF-upload failure (non-JSON body or not-ok status) stops after
the one PDF call; a thumbnail-upload failure stops after the two upload
calls; and the record-creation call is issued only when all three earlier
phases succeeded. -/
theorem pipeline_strictly_ordered (form : AddBookForm) (env : UploadEnv) :
    (env.thumbOk = false →
        handleAddBook form env = (.err "Failed to generate thumbnail", []) ∧
        NetCall.uploadPdf ∉ (handleAddBook form env).2 ∧
        NetCall.uploadThumb ∉ (handleAddBook form env).2 ∧
        NetCall.createRecord ∉ (handleAddBook form env).2) ∧
    (env.thumbOk = true → (env.pdfResp.body = none ∨ env.pdfResp.ok = false) →
        ∃ m, handleAddBook form env = (.err m, [.uploadPdf])) ∧
    (env.thumbOk = true → env.pdfResp.ok = true → env.pdfResp.body ≠ none →
        (env.thumbResp.body = none ∨ env.thumbResp.ok = false) →
        ∃ m, handleAddBook form env = (.err m, [.uploadPdf, .uploadThumb])) ∧
    ((env.thumbOk = false ∨ env.pdfResp.body = none ∨ env.pdfResp.ok = false ∨
        env.thumbResp.body = none ∨ env.thumbResp.ok = false) →
        NetCall.createRecord ∉ (handleAddBook form env).2) := by
  obtain ⟨tOk, ⟨pok, pst, pbody⟩, ⟨tok2, tst, tbody⟩, ⟨sok, sst, sbody⟩⟩ := env
  refine ⟨?_, ?_, ?_, ?_⟩
  · rintro rfl
    refine ⟨rfl, ?_, ?_, ?_⟩ <;> simp [handleAddBook]
  · rintro rfl h
    rcases h with h | h
    · rw [show pbody = none from h]
      exact ⟨_, rfl⟩
    · rcases pbody with _ | pd
      · exact ⟨_, rfl⟩
      · rw [show pok = false from h]
        exact ⟨_, rfl⟩
  · rintro rfl hpok hpb h
    simp only at hpok hpb
    subst hpok
    rcases pbody with _ | pd
    · exact absurd rfl hpb
    rcases h with h | h
    · rw [show tbody = none from h]
      exact ⟨_, rfl⟩
    · rcases tbody with _ | td
      · exact ⟨_, rfl⟩
      · rw [show tok2 = false from h]
        exact ⟨_, rfl⟩
  · intro h
    rcases h with h | h | h | h | h
    · have h2 : tOk = false := h
      subst h2
      simp [handleAddBook]
    · have h2 : pbody = none := h
      subst h2
      cases tOk <;> simp [handleAddBook]
    · have h2 : pok = false := h
      subst h2
      cases tOk <;> rcases pbody with _ | pd <;> simp [handleAddBook]
    · have h2 : tbody = none := h
      subst h2
      cases tOk <;> rcases pbody with _ | pd <;> cases pok <;> simp [handleAddBook]
    · have h2 : tok2 = false := h
      subst h2
      cases tOk <;> rcases pbody with _ | pd <;> cases pok <;>
        rcases tbody with _ | td <;> simp [handleAddBook]

/-- C6: when every phase succeeds, the posted record is exactly the one
built from the form — title from the course-title field for an academic
submission and from the direct title field otherwise, the fixed
organizational author, the two upload URLs, and the four academic fields
copied from the form. -/
theorem record_built_from_form (form : AddBookForm) (env : UploadEnv)
    (pd tb sd : JsonBody)
    (h1 : env.thumbOk = true)
    (h2 : env.pdfResp.ok = true) (h3 : env.pdfResp.body = some pd)
    (h4 : env.thumbResp.ok = true) (h5 : env.thumbResp.body = some tb)
    (h6 : env.saveResp.ok = true) (h7 : env.saveResp.body = some sd) :
    handleAddBook form env =
      (.ok (builtRecord form pd.url tb.url),
        [.uploadPdf, .uploadThumb, .createRecord]) := by
  simp [handleAddBook, builtRecord, h1, h2, h3, h4, h5, h6, h7]

/-- C6 witness: the scenario submission (category Academic, course title
`Intro to CS`, course code `CSC101`, department `Computer Science`, level
`100`) with successful uploads posts the record built from those values. -/
theorem record_built_from_form_witness :
    handleAddBook acadForm okEnv =
      (.ok (builtRecord acadForm (some "https://x/pdf") (some "https://x/thumb")),
        [.uploadPdf, .uploadThumb, .createRecord]) :=
  record_built_from_form acadForm okEnv
    { url := some "https://x/pdf", error := none }
    { url := some "https://x/thumb", error := none }
    { url := none, error := none } rfl rfl rfl rfl rfl rfl rfl

/-- C7: a record created through the workflow from a well-formed form
carries no academic fields when its category is Christian Novel, and all
four when its category is Academic. -/
theorem record_academic_fields (form : AddBookForm) (env : UploadEnv) (r : BookRecord)
    (hw : formWellFormed form) (h : (handleAddBook form env).1 = .ok r) :
    (r.category = .christianNovel →
        r.department = none ∧ r.course_code = none ∧ r.course_title = none ∧
        r.level = none) ∧
    (r.category = .academic →
        r.department.isSome = true ∧ r.course_code.isSome = true ∧
        r.course_title.isSome = true ∧ r.level.isSome = true) := by
  obtain ⟨pd, tb, hpd, htb, hr⟩ := handleAddBook_ok_shape form env r h
  subst hr
  constructor
  · intro hcat
    simp only [builtRecord] at hcat
    simp only [formWellFormed, hcat] at hw
    simp only [builtRecord]
    exact ⟨hw.2.1, hw.2.2.2.1, hw.2.2.2.2, hw.2.2.1⟩
  · intro hcat
    simp only [builtRecord] at hcat
    simp only [formWellFormed, hcat] at hw
    simp only [builtRecord]
    exact ⟨hw.2.1, hw.2.2.2.1, hw.2.2.2.2, hw.2.2.1⟩

/-- C7 witness: a Christian Novel submission through the successful
environment yields a record with no academic fields. -/
theorem record_academic_fields_witness :
    ((builtRecord novelForm (some "https://x/pdf") (some "https://x/thumb")).category =
        BookCategory.christianNovel →
      (builtRecord novelForm (some "https://x/pdf") (some "https://x/thumb")).department = none ∧
      (builtRecord novelForm (some "https://x/pdf") (some "https://x/thumb")).course_code = none ∧
      (builtRecord novelForm (some "https://x/pdf") (some "https://x/thumb")).course_title = none ∧
      (builtRecord novelForm (some "https://x/pdf") (some "https://x/thumb")).level = none) ∧
    ((builtRecord novelForm (some "https://x/pdf") (some "https://x/thumb")).category =
        BookCategory.academic →
      (builtRecord novelForm (some "https://x/pdf") (some "https://x/thumb")).department.isSome = true ∧
      (builtRecord novelForm (some "https://x/pdf") (some "https://x/thumb")).course_code.isSome = true ∧
      (builtRecord novelForm (some "https://x/pdf") (some "https://x/thumb")).course_title.isSome = true ∧
      (builtRecord novelForm (some "https://x/pdf") (some "https://x/thumb")).level.isSome = true) :=
  record_academic_fields novelForm okEnv
    (builtRecord novelForm (some "https://x/pdf") (some "https://x/thumb"))
    (by simp [formWellFormed, novelForm]) rfl

/-- C5: each optimistic removal restores the exact pre-mutation snapshot on
a failed remote call, and on success keeps exactly the items whose id
differs from the removed one. -/
theorem optimistic_rollback (pendingUsers : List PendingUser)
    (adminLinks : List RegistrationLink) (books : List Book)
    (uid lid bid : String) :
    (approveUserClient pendingUsers uid false = pendingUsers) ∧
    (∀ u, u ∈ approveUserClient pendingUsers uid true ↔
        u ∈ pendingUsers ∧ u.id ≠ uid) ∧
    (deleteLinkClient adminLinks lid true false = adminLinks) ∧
    (∀ l, l ∈ deleteLinkClient adminLinks lid true true ↔
        l ∈ adminLinks ∧ l.id ≠ lid) ∧
    (deleteBookClient books bid true false = books) ∧
    (∀ b, b ∈ deleteBookClient books bid true true ↔ b ∈ books ∧ b.id ≠ bid) := by
  refine ⟨rfl, ?_, rfl, ?_, rfl, ?_⟩ <;> intro x <;>
    simp [approveUserClient, deleteLinkClient, deleteBookClient, List.mem_filter]

/-- A sample demo-catalog row standing for an entry of `INITIAL_BOOKS`. -/
def demoRaw : RawBook :=
  { id := "d1", title := "Demo", author := "DLCF", category := "Academic",
    cover_url := none, coverUrl := some "c", download_url := none,
    downloadUrl := some "d", course_code := none, courseCode := none,
    course_title := none, courseTitle := none }

/-- C9 counterexample: with no banner showing, a thrown fetch (endpoint
unreachable) falls back to the demo catalog but leaves `dbError` at `none`,
so no banner notice is surfaced, contrary to the claim. -/
theorem fetch_fallback_counterexample :
    (fetchBooksUpdate [demoRaw] { books := [], dbError := none } .threw).books =
        [demoRaw] ∧
    (fetchBooksUpdate [demoRaw] { books := [], dbError := none } .threw).dbError =
        none :=
  ⟨rfl, rfl⟩

/-- C9 (amended): every unreachable or misconfigured outcome falls back to
the bundled demo catalog as the displayed list; the banner notice is
surfaced exactly when a not-ok response's error message mentions
`SUPABASE_URL` — a thrown fetch or an error without that marker leaves the
banner state unchanged. -/
theorem fetch_fallback_amended (demo : List RawBook) (st : BooksState)
    (h : st.dbError = none) :
    ((fetchBooksUpdate demo st .threw).books = demo ∧
      (fetchBooksUpdate demo st .threw).dbError = none) ∧
    (∀ e, (fetchBooksUpdate demo st (.respNotOk (some e))).books = demo ∧
      ((fetchBooksUpdate demo st (.respNotOk (some e))).dbError ≠ none ↔
        strIncludes e "SUPABASE_URL" = true)) ∧
    ((fetchBooksUpdate demo st (.respNotOk none)).books = demo ∧
      (fetchBooksUpdate demo st (.respNotOk none)).dbError = none) := by
  refine ⟨⟨rfl, h⟩, ?_, rfl, by simp [fetchBooksUpdate, h]⟩
  intro e
  refine ⟨rfl, ?_⟩
  by_cases hs : strIncludes e "SUPABASE_URL" = true
  · simp [fetchBooksUpdate, hs]
  · simp [fetchBooksUpdate, hs, h]

/-- C9 amended witness: the concrete one-row demo catalog instantiation. -/
theorem fetch_fallback_amended_witness :
    ((fetchBooksUpdate [demoRaw] { books := [], dbError := none } .threw).books =
        [demoRaw] ∧
      (fetchBooksUpdate [demoRaw] { books := [], dbError := none } .threw).dbError =
        none) ∧
    (∀ e, (fetchBooksUpdate [demoRaw] { books := [], dbError := none }
        (.respNotOk (some e))).books = [demoRaw] ∧
      ((fetchBooksUpdate [demoRaw] { books := [], dbError := none }
        (.respNotOk (some e))).dbError ≠ none ↔
        strIncludes e "SUPABASE_URL" = true)) ∧
    ((fetchBooksUpdate [demoRaw] { books := [], dbError := none }
        (.respNotOk none)).books = [demoRaw] ∧
      (fetchBooksUpdate [demoRaw] { books := [], dbError := none }
        (.respNotOk none)).dbError = none) :=
  fetch_fallback_amended [demoRaw] { books := [], dbError := none } rfl

end ELibrary
